import Mathlib

/-!
Verification development for the SheerID student-verification engine
(`sheerid_verifier.py` and `img_generator.py`).

The engine is embedded shallowly: every remote interaction is driven by a
mocked environment (`Env`) fixing the response of each endpoint, and the
run returns both its terminal `Outcome` and the ordered trace of remote
calls it issued.  Python exceptions are modelled by `Except PyErr`; the
outer try/except of `verify` is the wrapper turning an error into a
failure outcome.

External collaborators that are not part of the analysed sources
(`config.py`, `name_generator.py`) are modelled from the spec as opaque
inputs: the organization catalog is an abstract map `String → Option
School`, and the identity generator's outputs (`nameGen`, `birthGen`) and
the random stream (`rng`) are fields of `Env`.
-/

/-- One character of Python truthiness for optional string arguments:
`None` and the empty string are falsy. -/
def truthyS : Option String → Bool
  | none => false
  | some s => !(s == "")

/-- A resolved organization record (the single shape used by the engine):
mirrors the dicts built at `sheerid_verifier.py` lines 110-126 and the
entries of the static catalog. -/
structure School where
  id : Nat
  idExtended : String
  name : String
  domain : String
deriving DecidableEq, Repr

/-- The caller-supplied organization descriptor (`school_data` dict).
Optional fields model dict keys that may be absent; `from_search` models
the truthiness of `school_data.get('from_search')`. -/
structure SchoolData where
  from_search : Bool := false
  dict_key : Option String := none
  id : Option Nat := none
  idExtended : Option String := none
  name : Option String := none
  domain : Option String := none
deriving DecidableEq, Repr

/-- The five keyword arguments of `SheerIDVerifier.verify`;
`none` models an omitted argument (and `some ""` a falsy one). -/
structure Inputs where
  first_name : Option String := none
  last_name : Option String := none
  email : Option String := none
  birth_date : Option String := none
  school_data : Option SchoolData := none
deriving DecidableEq, Repr

/-- One document descriptor of the docUpload response;
`uploadUrl` is optional because `d["uploadUrl"]` may raise `KeyError`. -/
structure DocDesc where
  uploadUrl : Option String := none
deriving DecidableEq, Repr

/-- The JSON-object shape of a SheerID response body: only the keys the
engine reads (`.get("currentStep")`, `.get("errorIds")`,
`.get("documents")`, `.get("redirectUrl")`). -/
structure JsonObj where
  currentStep : Option String := none
  errorIds : Option (List String) := none
  documents : Option (List DocDesc) := none
  redirectUrl : Option String := none
deriving DecidableEq, Repr

/-- A parsed response body: `response.json()` succeeded (`obj`) or fell
back to `response.text` (`text`), per `_sheerid_request` lines 62-65. -/
inductive BodyV where
  | obj (o : JsonObj)
  | text (s : String)
deriving DecidableEq, Repr

/-- Result of one HTTP exchange as seen by `_sheerid_request`: either the
transport raised (`fail`, re-raised at line 69) or a body and status
were returned. -/
inductive Resp where
  | fail (msg : String)
  | ok (body : BodyV) (status : Nat)
deriving DecidableEq, Repr

/-- The Python exceptions that can cross `verify`'s try boundary. -/
inductive PyErr where
  | exc (msg : String)
  | keyError (key : String)
  | attributeError
  | transport (msg : String)
deriving DecidableEq, Repr

/-- Rendering of each modelled exception by Python str(e) (Python renders
`KeyError("k")` as `'k'`). -/
def PyErr.message : PyErr → String
  | .exc m => m
  | .keyError k => "'" ++ k ++ "'"
  | .attributeError => "'str' object has no attribute 'get'"
  | .transport m => m

/-- The collectStudentPersonalInfo request body (lines 154-174).  The
constant feature-flag and consent strings of the metadata block are
elided: they are opaque pass-through values never inspected by the
engine. -/
structure CollectBody where
  firstName : String
  lastName : String
  birthDate : String
  email : String
  phoneNumber : String
  orgId : Nat
  orgIdExtended : String
  orgName : String
  deviceFingerprintHash : String
  locale : String
  refererUrl : String
deriving DecidableEq, Repr

/-- The remote calls the engine can issue, in the order recorded. -/
inductive Call where
  | collectInfo (body : CollectBody)
  | ssoBypass
  | docUpload (fileSize : Nat)
  | putUpload (url : String) (payload : List Nat)
  | completeDocUpload
deriving DecidableEq, Repr

/-- The `student_info` dict of a success outcome (lines 237-243). -/
structure StudentInfo where
  first_name : String
  last_name : String
  email : String
  birth_date : String
  school_name : String
deriving DecidableEq, Repr

/-- The success dict returned at lines 230-244 (`success` and `pending`
are the constants `True`). -/
structure SuccessRec where
  message : String
  verification_id : String
  redirect_url : Option String
  status : BodyV
  student_info : StudentInfo
deriving DecidableEq, Repr

/-- Terminal value of a run: the success dict, or the failure dict built
by the except-handler at line 248. -/
inductive Outcome where
  | success (r : SuccessRec)
  | failure (message : String) (verification_id : String)
deriving DecidableEq, Repr

/-- Mocked environment of one run: the response of each endpoint, the
identity generator's outputs, the random stream, and the rendered image.
`putResult` is the status of the S3 PUT (`none` = transport failure,
which `_upload_to_s3` catches and turns into `false`).  `imgResult`
models `generate_image`, which returns PNG bytes or raises. -/
structure Env where
  nameGen : String × String
  birthGen : String
  rng : Nat → Nat
  imgResult : Except String (List Nat)
  collectResp : Resp
  ssoResp : Resp
  docUploadResp : Resp
  putResult : Option Nat
  completeResp : Resp

/-- Python `body.get(key)`: reading a field of the body raises
`AttributeError` when the body fell back to a plain string. -/
def BodyV.getField (b : BodyV) (f : JsonObj → Option α) : Except PyErr (Option α) :=
  match b with
  | .obj o => .ok (f o)
  | .text _ => .error .attributeError

/-- Python `d[key]` on an optional field: `KeyError` when absent. -/
def requireKey (k : String) : Option α → Except PyErr α
  | some v => .ok v
  | none => .error (.keyError k)

/-- Rendering of a body inside an f-string.  `str` of a string is
itself; the dict rendering is abstracted as an opaque token (no control
flow or claim depends on its exact text). -/
def renderBody : BodyV → String
  | .text s => s
  | .obj _ => "[object]"

/-- The character set of `generate_school_email` (`img_generator.py`
line 22). -/
def emailChars : String := "ABCDEFGHIJKLMNOPQRSTUVWXYZ0123456789"

/-- The 8-character local part: eight draws of `random.choice(chars)`,
the random source modelled as a stream of naturals taken modulo the
character-set size. -/
def genUsername (rng : Nat → Nat) : String :=
  String.mk ((List.range 8).map (fun i => emailChars.data.getD (rng i % emailChars.data.length) 'A'))

/-- Python `str.upper()` on ASCII strings, as a character-wise map. -/
def pyUpper (s : String) : String := String.mk (s.data.map Char.toUpper)

/-- The function generate_school_email (`img_generator.py` lines 7-24): random
local part, `@`, domain uppercased.  The name arguments are accepted and
ignored exactly as in the source. -/
def generate_school_email (rng : Nat → Nat) (first_name last_name school_domain : String) : String :=
  let _ := (first_name, last_name)
  genUsername rng ++ "@" ++ pyUpper school_domain

/-- Organization resolution (`verify` lines 105-126): search-result
shape, catalog lookup by `dict_key` (a `KeyError` when the key is
unknown), or fallback to the descriptor's own fields. -/
def resolveSchool (catalog : String → Option School) (sd : SchoolData) : Except PyErr School :=
  if sd.from_search then do
    let i ← requireKey "id" sd.id
    let ie ← requireKey "idExtended" sd.idExtended
    let nm ← requireKey "name" sd.name
    .ok { id := i, idExtended := ie, name := nm, domain := sd.domain.getD "university.edu" }
  else if truthyS sd.dict_key then
    match catalog (sd.dict_key.getD "") with
    | some s => .ok s
    | none => .error (.keyError (sd.dict_key.getD ""))
  else do
    let i ← requireKey "id" sd.id
    let ie ← requireKey "idExtended" sd.idExtended
    let nm ← requireKey "name" sd.name
    .ok { id := i, idExtended := ie, name := nm, domain := sd.domain.getD "university.edu" }

/-- Name resolution (lines 100-103): if either name argument is falsy,
BOTH are taken from the generator. -/
def mkNames (inp : Inputs) (env : Env) : String × String :=
  if !(truthyS inp.first_name) || !(truthyS inp.last_name) then env.nameGen
  else (inp.first_name.getD "", inp.last_name.getD "")

/-- Email resolution (lines 128-134). -/
def mkEmail (inp : Inputs) (env : Env) (domain : String) : String :=
  if truthyS inp.email then inp.email.getD ""
  else generate_school_email env.rng (mkNames inp env).1 (mkNames inp env).2 domain

/-- Birth-date resolution (lines 136-137). -/
def mkBirth (inp : Inputs) (env : Env) : String :=
  if truthyS inp.birth_date then inp.birth_date.getD "" else env.birthGen

/-- The `student_info` dict of the eventual success outcome. -/
def mkInfo (inp : Inputs) (env : Env) (school : School) : StudentInfo :=
  { first_name := (mkNames inp env).1
    last_name := (mkNames inp env).2
    email := mkEmail inp env school.domain
    birth_date := mkBirth inp env
    school_name := school.name }

/-- The step-2 request body (lines 154-174). -/
def mkBody (baseUrl programId vid fp : String) (inp : Inputs) (env : Env) (school : School) : CollectBody :=
  { firstName := (mkNames inp env).1
    lastName := (mkNames inp env).2
    birthDate := mkBirth inp env
    email := mkEmail inp env school.domain
    phoneNumber := ""
    orgId := school.id
    orgIdExtended := school.idExtended
    orgName := school.name
    deviceFingerprintHash := fp
    locale := "en-US"
    refererUrl := baseUrl ++ "/verify/" ++ programId ++ "/?verificationId=" ++ vid }

/-- Step 5/6 (lines 222-227 and the success dict 230-244): call
completeDocUpload; a transport failure propagates; reading
`currentStep` of a text body raises; otherwise assemble the success
record. -/
def stepComplete (env : Env) (vid : String) (info : StudentInfo) (calls : List Call) :
    Except PyErr SuccessRec × List Call :=
  match env.completeResp with
  | .fail m => (.error (.transport m), calls ++ [Call.completeDocUpload])
  | .ok b _ =>
    match b with
    | .text _ => (.error .attributeError, calls ++ [Call.completeDocUpload])
    | .obj o =>
      (.ok { message := "Document submitted, waiting for review"
             verification_id := vid
             redirect_url := o.redirectUrl
             status := .obj o
             student_info := info }, calls ++ [Call.completeDocUpload])

/-- The S3 PUT (lines 218-219 via `_upload_to_s3`, lines 71-81):
success is a 2xx status; a transport failure yields `false`; a
non-success aborts the run. -/
def stepUpload (env : Env) (vid : String) (info : StudentInfo) (img : List Nat)
    (upload_url : String) (calls : List Call) : Except PyErr SuccessRec × List Call :=
  match env.putResult with
  | none => (.error (.exc "S3 upload failed"), calls ++ [Call.putUpload upload_url img])
  | some st =>
    if 200 ≤ st ∧ st < 300 then stepComplete env vid info (calls ++ [Call.putUpload upload_url img])
    else (.error (.exc "S3 upload failed"), calls ++ [Call.putUpload upload_url img])

/-- Step 4 (lines 202-217): request the upload slot (its HTTP status is
never checked in the source), require a non-empty `documents` list,
take the first descriptor's `uploadUrl`, then transfer. -/
def stepDocUpload (env : Env) (vid : String) (info : StudentInfo) (img : List Nat)
    (calls : List Call) : Except PyErr SuccessRec × List Call :=
  match env.docUploadResp with
  | .fail m => (.error (.transport m), calls ++ [Call.docUpload img.length])
  | .ok b _ =>
    match b with
    | .text _ => (.error .attributeError, calls ++ [Call.docUpload img.length])
    | .obj o =>
      match o.documents with
      | none => (.error (.exc "Failed to get upload URL"), calls ++ [Call.docUpload img.length])
      | some [] => (.error (.exc "Failed to get upload URL"), calls ++ [Call.docUpload img.length])
      | some (d :: _) =>
        match d.uploadUrl with
        | none => (.error (.keyError "uploadUrl"), calls ++ [Call.docUpload img.length])
        | some u => stepUpload env vid info img u (calls ++ [Call.docUpload img.length])

/-- Step 3 (lines 191-199): issue the SSO bypass only when the current
step is `sso` or `collectStudentPersonalInfo`.  The response status is
discarded, but a transport failure propagates (re-raised by
`_sheerid_request`), and reading `currentStep` of a text body raises.
The updated `current_step` is never read by the remaining steps. -/
def stepSso (env : Env) (vid : String) (info : StudentInfo) (img : List Nat)
    (current_step : String) (calls : List Call) : Except PyErr SuccessRec × List Call :=
  if current_step = "sso" ∨ current_step = "collectStudentPersonalInfo" then
    match env.ssoResp with
    | .fail m => (.error (.transport m), calls ++ [Call.ssoBypass])
    | .ok b _ =>
      match b with
      | .text _ => (.error .attributeError, calls ++ [Call.ssoBypass])
      | .obj _ => stepDocUpload env vid info img (calls ++ [Call.ssoBypass])
  else stepDocUpload env vid info img calls

/-- Step 2 (lines 176-189): POST the personal info; non-200 status is
fatal; `currentStep == "error"` is fatal with the joined `errorIds`
(defaulting to the unknown-error placeholder); otherwise proceed with
the returned `currentStep` (default `"initial"`). -/
def stepCollect (env : Env) (vid : String) (body : CollectBody) (info : StudentInfo)
    (img : List Nat) (calls : List Call) : Except PyErr SuccessRec × List Call :=
  match env.collectResp with
  | .fail m => (.error (.transport m), calls ++ [Call.collectInfo body])
  | .ok b st =>
    if st ≠ 200 then
      (.error (.exc ("Step 2 failed (status code " ++ toString st ++ "): " ++ renderBody b)),
        calls ++ [Call.collectInfo body])
    else
      match b with
      | .text _ => (.error .attributeError, calls ++ [Call.collectInfo body])
      | .obj o =>
        if o.currentStep = some "error" then
          (.error (.exc ("Step 2 error: " ++
            String.intercalate ", " (o.errorIds.getD ["Unknown error"]))),
            calls ++ [Call.collectInfo body])
        else
          stepSso env vid info img (o.currentStep.getD "initial") (calls ++ [Call.collectInfo body])

/-- The body of `verify`'s try block (lines 92-244): require
`school_data`, resolve names, organization, email and birth date,
render the image, then run the remote steps. -/
def verifyBody (catalog : String → Option School) (baseUrl programId vid fp : String)
    (inp : Inputs) (env : Env) : Except PyErr SuccessRec × List Call :=
  match inp.school_data with
  | none => (.error (.exc "school_data is required! User must select a school."), [])
  | some sd =>
    match resolveSchool catalog sd with
    | .error e => (.error e, [])
    | .ok school =>
      match env.imgResult with
      | .error m => (.error (.exc ("Failed to generate image: " ++ m)), [])
      | .ok img =>
        stepCollect env vid (mkBody baseUrl programId vid fp inp env school)
          (mkInfo inp env school) img []

/-- The method SheerIDVerifier.verify: the try/except boundary (lines 246-248)
turning any exception into the uniform failure dict. -/
def verify (catalog : String → Option School) (baseUrl programId vid fp : String)
    (inp : Inputs) (env : Env) : Outcome × List Call :=
  match verifyBody catalog baseUrl programId vid fp inp env with
  | (.ok r, calls) => (.success r, calls)
  | (.error e, calls) => (.failure e.message vid, calls)

/-- Lowercased characters of the literal of the regex at line 45. -/
def vidLit : List Char := "verificationid=".data

/-- The class [a-f0-9] of the regex under re.IGNORECASE. -/
def isHexCI (c : Char) : Bool :=
  ('0' ≤ c && c ≤ '9') || ('a' ≤ c && c ≤ 'f') || ('A' ≤ c && c ≤ 'F')

/-- Case-insensitive literal match at the head of the input. -/
def ciStartsWith : List Char → List Char → Bool
  | [], _ => true
  | _ :: _, [] => false
  | p :: ps, c :: cs => (c.toLower == p) && ciStartsWith ps cs

/-- One attempt of the pattern at the current position: the literal must
match case-insensitively and be followed by at least one hex character;
the greedy plus captures the maximal hex run. -/
def tryVidAt (s : List Char) : Option String :=
  if ciStartsWith vidLit s then
    let hex := (s.drop vidLit.length).takeWhile isHexCI
    if hex.isEmpty then none else some (String.mk hex)
  else none

/-- Semantics of re.search for this fixed pattern: leftmost position at which the
whole pattern matches. -/
def findVid : List Char → Option String
  | [] => none
  | c :: rest =>
    match tryVidAt (c :: rest) with
    | some r => some r
    | none => findVid rest

/-- The static method SheerIDVerifier.parse_verification_id (lines 43-48). -/
def parse_verification_id (url : String) : Option String :=
  findVid url.data

/-- Whether the literal occurs (case-insensitively) anywhere in the
input; when it does not, the search can never match. -/
def hasVidOcc : List Char → Bool
  | [] => false
  | c :: rest => ciStartsWith vidLit (c :: rest) || hasVidOcc rest

/-! ### Concrete fixtures used to instantiate theorems -/

/-- A one-entry organization catalog (modelled from the spec: the static
catalog of `config.SCHOOLS` is an external read-only map). -/
def schoolMIT : School := { id := 1953, idExtended := "1953", name := "MIT", domain := "mit.edu" }

/-- Catalog holding only `schoolMIT` under the key "mit". -/
def catMIT : String → Option School :=
  fun k => if k = "mit" then some schoolMIT else none

/-- Caller inputs selecting the catalog entry and supplying nothing else. -/
def inpBase : Inputs := { school_data := some { dict_key := some "mit" } }

/-- A fully successful mocked environment. -/
def envBase : Env :=
  { nameGen := ("Bob", "Smith")
    birthGen := "2000-01-01"
    rng := fun _ => 0
    imgResult := .ok [7, 7, 7]
    collectResp := .ok (.obj { currentStep := some "docUpload" }) 200
    ssoResp := .ok (.obj { currentStep := some "docUpload" }) 200
    docUploadResp := .ok (.obj { documents := some [{ uploadUrl := some "https://s3/u" }] }) 200
    putResult := some 200
    completeResp := .ok (.obj { currentStep := some "pending", redirectUrl := some "https://r" }) 200 }

/-- Environment whose collect step reports `"sso"` and whose SSO-bypass
call fails at the transport level. -/
def envC3 : Env :=
  { envBase with
    collectResp := Resp.ok (BodyV.obj { currentStep := some "sso" }) 200
    ssoResp := Resp.fail "connection reset" }

/-- Inputs supplying a first name but no last name. -/
def inpC9 : Inputs := { first_name := some "Alice", school_data := some { dict_key := some "mit" } }

/-- Inputs supplying the whole identity. -/
def inpW9 : Inputs :=
  { first_name := some "Jo", last_name := some "Do", email := some "e@x",
    birth_date := some "1999-01-02", school_data := some { dict_key := some "mit" } }

/-- Environment whose collect step fails at the transport level, so the
trace stops after the one collect call. -/
def envC9 : Env := { envBase with collectResp := Resp.fail "down" }

/-! ### Basic lemmas about the run wrapper -/

theorem verify_snd_eq (cat : String → Option School) (bu pi vid fp : String) (inp : Inputs) (env : Env) :
    (verify cat bu pi vid fp inp env).2 = (verifyBody cat bu pi vid fp inp env).2 := by
  unfold verify
  cases h : verifyBody cat bu pi vid fp inp env with
  | mk res calls => cases res <;> rfl

theorem verify_of_error (cat : String → Option School) (bu pi vid fp : String) (inp : Inputs) (env : Env)
    (e : PyErr) (t : List Call) (h : verifyBody cat bu pi vid fp inp env = (.error e, t)) :
    verify cat bu pi vid fp inp env = (.failure e.message vid, t) := by
  unfold verify; rw [h]

theorem verify_of_ok (cat : String → Option School) (bu pi vid fp : String) (inp : Inputs) (env : Env)
    (r : SuccessRec) (t : List Call) (h : verifyBody cat bu pi vid fp inp env = (.ok r, t)) :
    verify cat bu pi vid fp inp env = (.success r, t) := by
  unfold verify; rw [h]

theorem verifyBody_reach (cat : String → Option School) (bu pi vid fp : String) (inp : Inputs) (env : Env)
    (sd : SchoolData) (school : School) (img : List Nat)
    (h1 : inp.school_data = some sd) (h2 : resolveSchool cat sd = .ok school)
    (h3 : env.imgResult = .ok img) :
    verifyBody cat bu pi vid fp inp env =
      stepCollect env vid (mkBody bu pi vid fp inp env school) (mkInfo inp env school) img [] := by
  unfold verifyBody
  simp only [h1, h2, h3]

theorem verifyBody_trace_cases (cat : String → Option School) (bu pi vid fp : String) (inp : Inputs) (env : Env) :
    (verifyBody cat bu pi vid fp inp env).2 = [] ∨
      ∃ sd school img, inp.school_data = some sd ∧ resolveSchool cat sd = .ok school ∧
        env.imgResult = .ok img := by
  unfold verifyBody
  split
  next h1 => exact Or.inl rfl
  next sd h1 =>
    split
    next e h2 => exact Or.inl rfl
    next school h2 =>
      split
      next m h3 => exact Or.inl rfl
      next img h3 => exact Or.inr ⟨sd, school, img, h1, h2, h3⟩

/-! ### Branch lemmas for the individual protocol steps -/

theorem stepCollect_fail (env : Env) (vid : String) (body : CollectBody) (info : StudentInfo)
    (img : List Nat) (calls : List Call) (m : String) (h : env.collectResp = .fail m) :
    stepCollect env vid body info img calls =
      (.error (.transport m), calls ++ [Call.collectInfo body]) := by
  unfold stepCollect; simp only [h]

theorem stepCollect_non200 (env : Env) (vid : String) (body : CollectBody) (info : StudentInfo)
    (img : List Nat) (calls : List Call) (b : BodyV) (st : Nat)
    (h : env.collectResp = .ok b st) (hst : st ≠ 200) :
    stepCollect env vid body info img calls =
      (.error (.exc ("Step 2 failed (status code " ++ toString st ++ "): " ++ renderBody b)),
        calls ++ [Call.collectInfo body]) := by
  unfold stepCollect; simp only [h]; rw [if_pos hst]

theorem stepCollect_text (env : Env) (vid : String) (body : CollectBody) (info : StudentInfo)
    (img : List Nat) (calls : List Call) (s : String) (h : env.collectResp = .ok (.text s) 200) :
    stepCollect env vid body info img calls =
      (.error .attributeError, calls ++ [Call.collectInfo body]) := by
  unfold stepCollect; simp [h]

theorem stepCollect_error (env : Env) (vid : String) (body : CollectBody) (info : StudentInfo)
    (img : List Nat) (calls : List Call) (o : JsonObj)
    (h : env.collectResp = .ok (.obj o) 200) (he : o.currentStep = some "error") :
    stepCollect env vid body info img calls =
      (.error (.exc ("Step 2 error: " ++
          String.intercalate ", " (o.errorIds.getD ["Unknown error"]))),
        calls ++ [Call.collectInfo body]) := by
  unfold stepCollect; simp [h, he]

theorem stepCollect_ok (env : Env) (vid : String) (body : CollectBody) (info : StudentInfo)
    (img : List Nat) (calls : List Call) (o : JsonObj)
    (h : env.collectResp = .ok (.obj o) 200) (he : o.currentStep ≠ some "error") :
    stepCollect env vid body info img calls =
      stepSso env vid info img (o.currentStep.getD "initial") (calls ++ [Call.collectInfo body]) := by
  unfold stepCollect; simp only [h]; rw [if_neg he]; simp

theorem stepSso_skip (env : Env) (vid : String) (info : StudentInfo) (img : List Nat)
    (cs : String) (calls : List Call)
    (h : ¬(cs = "sso" ∨ cs = "collectStudentPersonalInfo")) :
    stepSso env vid info img cs calls = stepDocUpload env vid info img calls := by
  unfold stepSso; rw [if_neg h]

theorem stepSso_go_fail (env : Env) (vid : String) (info : StudentInfo) (img : List Nat)
    (cs : String) (calls : List Call) (m : String)
    (h : cs = "sso" ∨ cs = "collectStudentPersonalInfo") (hr : env.ssoResp = .fail m) :
    stepSso env vid info img cs calls = (.error (.transport m), calls ++ [Call.ssoBypass]) := by
  unfold stepSso; rw [if_pos h]; simp only [hr]

theorem stepSso_go_text (env : Env) (vid : String) (info : StudentInfo) (img : List Nat)
    (cs : String) (calls : List Call) (s : String) (st : Nat)
    (h : cs = "sso" ∨ cs = "collectStudentPersonalInfo") (hr : env.ssoResp = .ok (.text s) st) :
    stepSso env vid info img cs calls = (.error .attributeError, calls ++ [Call.ssoBypass]) := by
  unfold stepSso; rw [if_pos h]; simp only [hr]

theorem stepSso_go_obj (env : Env) (vid : String) (info : StudentInfo) (img : List Nat)
    (cs : String) (calls : List Call) (o : JsonObj) (st : Nat)
    (h : cs = "sso" ∨ cs = "collectStudentPersonalInfo") (hr : env.ssoResp = .ok (.obj o) st) :
    stepSso env vid info img cs calls = stepDocUpload env vid info img (calls ++ [Call.ssoBypass]) := by
  unfold stepSso; rw [if_pos h]; simp only [hr]

theorem stepDocUpload_missing (env : Env) (vid : String) (info : StudentInfo) (img : List Nat)
    (calls : List Call) (o : JsonObj) (st : Nat)
    (h : env.docUploadResp = .ok (.obj o) st) (hd : o.documents = none ∨ o.documents = some []) :
    stepDocUpload env vid info img calls =
      (.error (.exc "Failed to get upload URL"), calls ++ [Call.docUpload img.length]) := by
  unfold stepDocUpload; simp only [h]
  rcases hd with hd | hd <;> simp only [hd]

theorem stepDocUpload_found (env : Env) (vid : String) (info : StudentInfo) (img : List Nat)
    (calls : List Call) (o : JsonObj) (st : Nat) (d : DocDesc) (ds : List DocDesc) (u : String)
    (h : env.docUploadResp = .ok (.obj o) st) (hd : o.documents = some (d :: ds))
    (hu : d.uploadUrl = some u) :
    stepDocUpload env vid info img calls =
      stepUpload env vid info img u (calls ++ [Call.docUpload img.length]) := by
  unfold stepDocUpload; simp only [h, hd, hu]

/-! ### Remaining branch lemmas -/

theorem stepDocUpload_fail (env : Env) (vid : String) (info : StudentInfo) (img : List Nat)
    (calls : List Call) (m : String) (h : env.docUploadResp = .fail m) :
    stepDocUpload env vid info img calls =
      (.error (.transport m), calls ++ [Call.docUpload img.length]) := by
  unfold stepDocUpload; simp only [h]

theorem stepDocUpload_text (env : Env) (vid : String) (info : StudentInfo) (img : List Nat)
    (calls : List Call) (s : String) (st : Nat) (h : env.docUploadResp = .ok (.text s) st) :
    stepDocUpload env vid info img calls =
      (.error .attributeError, calls ++ [Call.docUpload img.length]) := by
  unfold stepDocUpload; simp only [h]

theorem stepDocUpload_nourl (env : Env) (vid : String) (info : StudentInfo) (img : List Nat)
    (calls : List Call) (o : JsonObj) (st : Nat) (d : DocDesc) (ds : List DocDesc)
    (h : env.docUploadResp = .ok (.obj o) st) (hd : o.documents = some (d :: ds))
    (hu : d.uploadUrl = none) :
    stepDocUpload env vid info img calls =
      (.error (.keyError "uploadUrl"), calls ++ [Call.docUpload img.length]) := by
  unfold stepDocUpload; simp only [h, hd, hu]

theorem stepUpload_bad (env : Env) (vid : String) (info : StudentInfo) (img : List Nat)
    (u : String) (calls : List Call)
    (h : ∀ st, env.putResult = some st → ¬(200 ≤ st ∧ st < 300)) :
    stepUpload env vid info img u calls =
      (.error (.exc "S3 upload failed"), calls ++ [Call.putUpload u img]) := by
  unfold stepUpload
  cases hr : env.putResult with
  | none => rfl
  | some st => simp only []; rw [if_neg (h st hr)]

theorem stepUpload_2xx (env : Env) (vid : String) (info : StudentInfo) (img : List Nat)
    (u : String) (calls : List Call) (st : Nat)
    (h : env.putResult = some st) (hst : 200 ≤ st ∧ st < 300) :
    stepUpload env vid info img u calls =
      stepComplete env vid info (calls ++ [Call.putUpload u img]) := by
  unfold stepUpload; simp only [h]; rw [if_pos hst]

theorem stepComplete_fail (env : Env) (vid : String) (info : StudentInfo) (calls : List Call)
    (m : String) (h : env.completeResp = .fail m) :
    stepComplete env vid info calls = (.error (.transport m), calls ++ [Call.completeDocUpload]) := by
  unfold stepComplete; simp only [h]

theorem stepComplete_text (env : Env) (vid : String) (info : StudentInfo) (calls : List Call)
    (s : String) (st : Nat) (h : env.completeResp = .ok (.text s) st) :
    stepComplete env vid info calls = (.error .attributeError, calls ++ [Call.completeDocUpload]) := by
  unfold stepComplete; simp only [h]

theorem stepComplete_obj (env : Env) (vid : String) (info : StudentInfo) (calls : List Call)
    (o : JsonObj) (st : Nat) (h : env.completeResp = .ok (.obj o) st) :
    stepComplete env vid info calls =
      (.ok { message := "Document submitted, waiting for review"
             verification_id := vid
             redirect_url := o.redirectUrl
             status := .obj o
             student_info := info }, calls ++ [Call.completeDocUpload]) := by
  unfold stepComplete; simp only [h]

/-! ### Trace-shape lemmas: each step appends its own calls after the input prefix -/

theorem stepComplete_snd (env : Env) (vid : String) (info : StudentInfo) (calls : List Call) :
    (stepComplete env vid info calls).2 = calls ++ [Call.completeDocUpload] := by
  cases h : env.completeResp with
  | fail m => rw [stepComplete_fail env vid info calls m h]
  | ok b st =>
    cases b with
    | text s => rw [stepComplete_text env vid info calls s st h]
    | obj o => rw [stepComplete_obj env vid info calls o st h]

theorem stepUpload_snd (env : Env) (vid : String) (info : StudentInfo) (img : List Nat)
    (u : String) (calls : List Call) :
    ∃ t, (stepUpload env vid info img u calls).2 = calls ++ Call.putUpload u img :: t ∧
      ∀ x ∈ t, x = Call.completeDocUpload := by
  cases hr : env.putResult with
  | none =>
    rw [stepUpload_bad env vid info img u calls (by intro st hst; rw [hr] at hst; exact absurd hst (by simp))]
    exact ⟨[], by simp, by simp⟩
  | some st =>
    by_cases hst : 200 ≤ st ∧ st < 300
    · rw [stepUpload_2xx env vid info img u calls st hr hst, stepComplete_snd]
      exact ⟨[Call.completeDocUpload], by simp, by simp⟩
    · rw [stepUpload_bad env vid info img u calls (by intro st' hst'; rw [hr] at hst'; cases hst'; exact hst)]
      exact ⟨[], by simp, by simp⟩

theorem stepDocUpload_snd (env : Env) (vid : String) (info : StudentInfo) (img : List Nat)
    (calls : List Call) :
    ∃ t, (stepDocUpload env vid info img calls).2 = calls ++ Call.docUpload img.length :: t ∧
      ∀ x ∈ t, (∃ u p, x = Call.putUpload u p) ∨ x = Call.completeDocUpload := by
  cases h : env.docUploadResp with
  | fail m =>
    rw [stepDocUpload_fail env vid info img calls m h]; exact ⟨[], by simp, by simp⟩
  | ok b st =>
    cases b with
    | text s => rw [stepDocUpload_text env vid info img calls s st h]; exact ⟨[], by simp, by simp⟩
    | obj o =>
      cases hd : o.documents with
      | none =>
        rw [stepDocUpload_missing env vid info img calls o st h (Or.inl hd)]
        exact ⟨[], by simp, by simp⟩
      | some ds =>
        cases ds with
        | nil =>
          rw [stepDocUpload_missing env vid info img calls o st h (Or.inr hd)]
          exact ⟨[], by simp, by simp⟩
        | cons d ds =>
          cases hu : d.uploadUrl with
          | none =>
            rw [stepDocUpload_nourl env vid info img calls o st d ds h hd hu]
            exact ⟨[], by simp, by simp⟩
          | some u =>
            rw [stepDocUpload_found env vid info img calls o st d ds u h hd hu]
            obtain ⟨t, ht, hall⟩ := stepUpload_snd env vid info img u (calls ++ [Call.docUpload img.length])
            refine ⟨Call.putUpload u img :: t, ?_, ?_⟩
            · rw [ht]; simp
            · intro x hx
              rcases List.mem_cons.mp hx with hx | hx
              · exact Or.inl ⟨u, img, hx⟩
              · exact Or.inr (hall x hx)

theorem stepSso_snd (env : Env) (vid : String) (info : StudentInfo) (img : List Nat)
    (cs : String) (calls : List Call) :
    ∃ t, (stepSso env vid info img cs calls).2 = calls ++ t ∧
      ∀ x ∈ t, x = Call.ssoBypass ∨ (∃ n, x = Call.docUpload n) ∨
        (∃ u p, x = Call.putUpload u p) ∨ x = Call.completeDocUpload := by
  by_cases hc : cs = "sso" ∨ cs = "collectStudentPersonalInfo"
  · cases hr : env.ssoResp with
    | fail m =>
      rw [stepSso_go_fail env vid info img cs calls m hc hr]
      exact ⟨[Call.ssoBypass], by simp, by simp⟩
    | ok b st =>
      cases b with
      | text s =>
        rw [stepSso_go_text env vid info img cs calls s st hc hr]
        exact ⟨[Call.ssoBypass], by simp, by simp⟩
      | obj o =>
        rw [stepSso_go_obj env vid info img cs calls o st hc hr]
        obtain ⟨t, ht, hall⟩ := stepDocUpload_snd env vid info img (calls ++ [Call.ssoBypass])
        refine ⟨Call.ssoBypass :: Call.docUpload img.length :: t, ?_, ?_⟩
        · rw [ht]; simp
        · intro x hx
          rcases List.mem_cons.mp hx with hx | hx
          · exact Or.inl hx
          · rcases List.mem_cons.mp hx with hx | hx
            · exact Or.inr (Or.inl ⟨img.length, hx⟩)
            · rcases hall x hx with hx | hx
              · exact Or.inr (Or.inr (Or.inl hx))
              · exact Or.inr (Or.inr (Or.inr hx))
  · rw [stepSso_skip env vid info img cs calls hc]
    obtain ⟨t, ht, hall⟩ := stepDocUpload_snd env vid info img calls
    refine ⟨Call.docUpload img.length :: t, ht, ?_⟩
    intro x hx
    rcases List.mem_cons.mp hx with hx | hx
    · exact Or.inr (Or.inl ⟨img.length, hx⟩)
    · rcases hall x hx with hx | hx
      · exact Or.inr (Or.inr (Or.inl hx))
      · exact Or.inr (Or.inr (Or.inr hx))

theorem stepCollect_snd (env : Env) (vid : String) (body : CollectBody) (info : StudentInfo)
    (img : List Nat) (calls : List Call) :
    ∃ t, (stepCollect env vid body info img calls).2 = calls ++ Call.collectInfo body :: t ∧
      ∀ x ∈ t, x = Call.ssoBypass ∨ (∃ n, x = Call.docUpload n) ∨
        (∃ u p, x = Call.putUpload u p) ∨ x = Call.completeDocUpload := by
  cases h : env.collectResp with
  | fail m =>
    rw [stepCollect_fail env vid body info img calls m h]; exact ⟨[], by simp, by simp⟩
  | ok b st =>
    by_cases hst : st = 200
    · subst hst
      cases b with
      | text s => rw [stepCollect_text env vid body info img calls s h]; exact ⟨[], by simp, by simp⟩
      | obj o =>
        by_cases he : o.currentStep = some "error"
        · rw [stepCollect_error env vid body info img calls o h he]; exact ⟨[], by simp, by simp⟩
        · rw [stepCollect_ok env vid body info img calls o h he]
          obtain ⟨t, ht, hall⟩ :=
            stepSso_snd env vid info img (o.currentStep.getD "initial") (calls ++ [Call.collectInfo body])
          exact ⟨t, by rw [ht]; simp, hall⟩
    · rw [stepCollect_non200 env vid body info img calls b st h hst]; exact ⟨[], by simp, by simp⟩

/-! ### Success-path lemmas: the success record carries the resolved identity -/

theorem stepComplete_ok_info (env : Env) (vid : String) (info : StudentInfo) (calls : List Call)
    (r : SuccessRec) (h : (stepComplete env vid info calls).1 = .ok r) :
    r.student_info = info ∧ r.verification_id = vid ∧
      r.message = "Document submitted, waiting for review" := by
  cases hr : env.completeResp with
  | fail m => rw [stepComplete_fail env vid info calls m hr] at h; cases h
  | ok b st =>
    cases b with
    | text s => rw [stepComplete_text env vid info calls s st hr] at h; cases h
    | obj o =>
      rw [stepComplete_obj env vid info calls o st hr] at h
      cases h; exact ⟨rfl, rfl, rfl⟩

theorem stepUpload_ok_info (env : Env) (vid : String) (info : StudentInfo) (img : List Nat)
    (u : String) (calls : List Call) (r : SuccessRec)
    (h : (stepUpload env vid info img u calls).1 = .ok r) :
    r.student_info = info ∧ r.verification_id = vid ∧
      r.message = "Document submitted, waiting for review" := by
  cases hr : env.putResult with
  | none =>
    rw [stepUpload_bad env vid info img u calls (by intro st hst; rw [hr] at hst; exact absurd hst (by simp))] at h
    cases h
  | some st =>
    by_cases hst : 200 ≤ st ∧ st < 300
    · rw [stepUpload_2xx env vid info img u calls st hr hst] at h
      exact stepComplete_ok_info env vid info _ r h
    · rw [stepUpload_bad env vid info img u calls (by intro st' hst'; rw [hr] at hst'; cases hst'; exact hst)] at h
      cases h

theorem stepDocUpload_ok_info (env : Env) (vid : String) (info : StudentInfo) (img : List Nat)
    (calls : List Call) (r : SuccessRec)
    (h : (stepDocUpload env vid info img calls).1 = .ok r) :
    r.student_info = info ∧ r.verification_id = vid ∧
      r.message = "Document submitted, waiting for review" := by
  cases hr : env.docUploadResp with
  | fail m => rw [stepDocUpload_fail env vid info img calls m hr] at h; cases h
  | ok b st =>
    cases b with
    | text s => rw [stepDocUpload_text env vid info img calls s st hr] at h; cases h
    | obj o =>
      cases hd : o.documents with
      | none => rw [stepDocUpload_missing env vid info img calls o st hr (Or.inl hd)] at h; cases h
      | some ds =>
        cases ds with
        | nil => rw [stepDocUpload_missing env vid info img calls o st hr (Or.inr hd)] at h; cases h
        | cons d ds =>
          cases hu : d.uploadUrl with
          | none => rw [stepDocUpload_nourl env vid info img calls o st d ds hr hd hu] at h; cases h
          | some u =>
            rw [stepDocUpload_found env vid info img calls o st d ds u hr hd hu] at h
            exact stepUpload_ok_info env vid info img u _ r h

theorem stepSso_ok_info (env : Env) (vid : String) (info : StudentInfo) (img : List Nat)
    (cs : String) (calls : List Call) (r : SuccessRec)
    (h : (stepSso env vid info img cs calls).1 = .ok r) :
    r.student_info = info ∧ r.verification_id = vid ∧
      r.message = "Document submitted, waiting for review" := by
  by_cases hc : cs = "sso" ∨ cs = "collectStudentPersonalInfo"
  · cases hr : env.ssoResp with
    | fail m => rw [stepSso_go_fail env vid info img cs calls m hc hr] at h; cases h
    | ok b st =>
      cases b with
      | text s => rw [stepSso_go_text env vid info img cs calls s st hc hr] at h; cases h
      | obj o =>
        rw [stepSso_go_obj env vid info img cs calls o st hc hr] at h
        exact stepDocUpload_ok_info env vid info img _ r h
  · rw [stepSso_skip env vid info img cs calls hc] at h
    exact stepDocUpload_ok_info env vid info img _ r h

theorem stepCollect_ok_info (env : Env) (vid : String) (body : CollectBody) (info : StudentInfo)
    (img : List Nat) (calls : List Call) (r : SuccessRec)
    (h : (stepCollect env vid body info img calls).1 = .ok r) :
    r.student_info = info ∧ r.verification_id = vid ∧
      r.message = "Document submitted, waiting for review" := by
  cases hr : env.collectResp with
  | fail m => rw [stepCollect_fail env vid body info img calls m hr] at h; cases h
  | ok b st =>
    by_cases hst : st = 200
    · subst hst
      cases b with
      | text s => rw [stepCollect_text env vid body info img calls s hr] at h; cases h
      | obj o =>
        by_cases he : o.currentStep = some "error"
        · rw [stepCollect_error env vid body info img calls o hr he] at h; cases h
        · rw [stepCollect_ok env vid body info img calls o hr he] at h
          exact stepSso_ok_info env vid info img _ _ r h
    · rw [stepCollect_non200 env vid body info img calls b st hr hst] at h; cases h

theorem verify_success_info (cat : String → Option School) (bu pi vid fp : String)
    (inp : Inputs) (env : Env) (r : SuccessRec)
    (h : (verify cat bu pi vid fp inp env).1 = .success r) :
    ∃ sd school img, inp.school_data = some sd ∧ resolveSchool cat sd = .ok school ∧
      env.imgResult = .ok img ∧ r.student_info = mkInfo inp env school ∧
      r.verification_id = vid ∧ r.message = "Document submitted, waiting for review" := by
  have hok : (verifyBody cat bu pi vid fp inp env).1 = .ok r := by
    unfold verify at h
    cases hb : verifyBody cat bu pi vid fp inp env with
    | mk res calls =>
      rw [hb] at h
      cases res with
      | ok r' => cases h; rfl
      | error e => cases h
  unfold verifyBody at hok
  cases h1 : inp.school_data with
  | none => simp only [h1] at hok; simp at hok
  | some sd =>
    simp only [h1] at hok
    cases h2 : resolveSchool cat sd with
    | error e => simp only [h2] at hok; simp at hok
    | ok school =>
      simp only [h2] at hok
      cases h3 : env.imgResult with
      | error m => simp only [h3] at hok; simp at hok
      | ok img =>
        simp only [h3] at hok
        obtain ⟨hi, hv, hm⟩ := stepCollect_ok_info env vid _ _ img [] r hok
        exact ⟨sd, school, img, rfl, h2, rfl, hi, hv, hm⟩

/-! ### Membership utilities over run traces -/

theorem stepDocUpload_mem_sso (env : Env) (vid : String) (info : StudentInfo) (img : List Nat)
    (calls : List Call) :
    Call.ssoBypass ∈ (stepDocUpload env vid info img calls).2 ↔ Call.ssoBypass ∈ calls := by
  obtain ⟨t, ht, hall⟩ := stepDocUpload_snd env vid info img calls
  rw [ht]
  simp only [List.mem_append, List.mem_cons]
  constructor
  · rintro (h | h | h)
    · exact h
    · exact Call.noConfusion h
    · rcases hall _ h with ⟨u, p, hx⟩ | hx
      · exact Call.noConfusion hx
      · exact Call.noConfusion hx
  · exact fun h => Or.inl h

theorem stepDocUpload_mem_self (env : Env) (vid : String) (info : StudentInfo) (img : List Nat)
    (calls : List Call) :
    Call.docUpload img.length ∈ (stepDocUpload env vid info img calls).2 := by
  obtain ⟨t, ht, _⟩ := stepDocUpload_snd env vid info img calls
  rw [ht]; simp

theorem stepDocUpload_mem_of (env : Env) (vid : String) (info : StudentInfo) (img : List Nat)
    (calls : List Call) (x : Call) (h : x ∈ calls) :
    x ∈ (stepDocUpload env vid info img calls).2 := by
  obtain ⟨t, ht, _⟩ := stepDocUpload_snd env vid info img calls
  rw [ht]; exact List.mem_append_left _ h

theorem stepDocUpload_mem_put (env : Env) (vid : String) (info : StudentInfo) (img : List Nat)
    (calls : List Call) (o : JsonObj) (st : Nat) (d : DocDesc) (ds : List DocDesc) (u : String)
    (h : env.docUploadResp = .ok (.obj o) st) (hd : o.documents = some (d :: ds))
    (hu : d.uploadUrl = some u) :
    Call.putUpload u img ∈ (stepDocUpload env vid info img calls).2 := by
  rw [stepDocUpload_found env vid info img calls o st d ds u h hd hu]
  obtain ⟨t, ht, _⟩ := stepUpload_snd env vid info img u (calls ++ [Call.docUpload img.length])
  rw [ht]; simp

theorem stepCollect_mem_self (env : Env) (vid : String) (body : CollectBody) (info : StudentInfo)
    (img : List Nat) (calls : List Call) :
    Call.collectInfo body ∈ (stepCollect env vid body info img calls).2 := by
  obtain ⟨t, ht, _⟩ := stepCollect_snd env vid body info img calls
  rw [ht]; simp

theorem stepCollect_collect_unique (env : Env) (vid : String) (body : CollectBody)
    (info : StudentInfo) (img : List Nat) (b : CollectBody)
    (h : Call.collectInfo b ∈ (stepCollect env vid body info img []).2) : b = body := by
  obtain ⟨t, ht, hall⟩ := stepCollect_snd env vid body info img []
  rw [ht] at h
  simp only [List.nil_append, List.mem_cons] at h
  rcases h with h | h
  · exact (Call.collectInfo.injEq b body).mp h
  · rcases hall _ h with hx | ⟨n, hx⟩ | ⟨u, p, hx⟩ | hx
    · exact Call.noConfusion hx
    · exact Call.noConfusion hx
    · exact Call.noConfusion hx
    · exact Call.noConfusion hx

/-! ### Claim theorems -/

/-- C1: if the collect-personal-info step returns HTTP 200 with
`currentStep == "error"`, `verify` returns a failure outcome whose
message joins all `errorIds` with a comma (with the generic
"Unknown error" placeholder when `errorIds` is absent), and no further
remote call is made: the trace is exactly the one collect call, so the
upload slot is never requested. -/
theorem C1_step2_error (cat : String → Option School) (bu pi vid fp : String) (inp : Inputs)
    (env : Env) (o : JsonObj)
    (hresp : env.collectResp = .ok (.obj o) 200)
    (herr : o.currentStep = some "error")
    (hreach : ∃ b, Call.collectInfo b ∈ (verify cat bu pi vid fp inp env).2) :
    (verify cat bu pi vid fp inp env).1 =
      .failure ("Step 2 error: " ++ String.intercalate ", " (o.errorIds.getD ["Unknown error"])) vid ∧
    ∃ b, (verify cat bu pi vid fp inp env).2 = [Call.collectInfo b] := by
  obtain ⟨b0, hb0⟩ := hreach
  rw [verify_snd_eq] at hb0
  rcases verifyBody_trace_cases cat bu pi vid fp inp env with hnil | ⟨sd, school, img, h1, h2, h3⟩
  · rw [hnil] at hb0; exact absurd hb0 (List.not_mem_nil _)
  · have hvb := verifyBody_reach cat bu pi vid fp inp env sd school img h1 h2 h3
    have hc := stepCollect_error env vid (mkBody bu pi vid fp inp env school)
      (mkInfo inp env school) img [] o hresp herr
    have hv := verify_of_error cat bu pi vid fp inp env
      (.exc ("Step 2 error: " ++ String.intercalate ", " (o.errorIds.getD ["Unknown error"])))
      ([] ++ [Call.collectInfo (mkBody bu pi vid fp inp env school)])
      (by rw [hvb, hc])
    exact ⟨by rw [hv]; rfl, ⟨mkBody bu pi vid fp inp env school, by rw [hv]; rfl⟩⟩

/-- C1 witness: concrete mocked service rejecting with INVALID_EMAIL. -/
theorem C1_step2_error_witness :
    (verify catMIT "https://b" "P" "vid0" "fp0" inpBase
        { envBase with collectResp := Resp.ok (BodyV.obj { currentStep := some "error", errorIds := some ["INVALID_EMAIL"] }) 200 }).1 =
      .failure ("Step 2 error: " ++ String.intercalate ", "
        ((some ["INVALID_EMAIL"] : Option (List String)).getD ["Unknown error"])) "vid0" ∧
    ∃ b, (verify catMIT "https://b" "P" "vid0" "fp0" inpBase
        { envBase with collectResp := Resp.ok (BodyV.obj { currentStep := some "error", errorIds := some ["INVALID_EMAIL"] }) 200 }).2 =
      [Call.collectInfo b] := by
  exact C1_step2_error catMIT "https://b" "P" "vid0" "fp0" inpBase _
    { currentStep := some "error", errorIds := some ["INVALID_EMAIL"] } rfl rfl
    ⟨mkBody "https://b" "P" "vid0" "fp0" inpBase
        { envBase with collectResp := Resp.ok (BodyV.obj { currentStep := some "error", errorIds := some ["INVALID_EMAIL"] }) 200 }
        schoolMIT, by decide⟩

/-- C6: calling `verify` without a `school_data` descriptor fails with the
missing-organization message, whatever the identity arguments are, and
issues no remote call. -/
theorem C6_missing_school (cat : String → Option School) (bu pi vid fp : String) (inp : Inputs)
    (env : Env) (hsd : inp.school_data = none) :
    verify cat bu pi vid fp inp env =
      (.failure "school_data is required! User must select a school." vid, []) := by
  have hb : verifyBody cat bu pi vid fp inp env =
      (.error (.exc "school_data is required! User must select a school."), []) := by
    unfold verifyBody; rw [hsd]
  exact verify_of_error cat bu pi vid fp inp env _ _ hb

/-- C6 witness: fully supplied identity, still rejected before any call. -/
theorem C6_missing_school_witness :
    verify catMIT "https://b" "P" "vid0" "fp0"
        { first_name := some "John", last_name := some "Doe", email := some "j@d",
          birth_date := some "2000-01-01" } envBase =
      (.failure "school_data is required! User must select a school." "vid0", []) :=
  C6_missing_school catMIT "https://b" "P" "vid0" "fp0" _ envBase rfl

/-- C2: the SSO-bypass call is issued exactly when the completed
collect-personal-info step reported `currentStep` equal to `"sso"` or
`"collectStudentPersonalInfo"`; for any other reported step the bypass
is not issued and the engine proceeds directly to requesting the upload
slot. -/
theorem C2_sso_guard (cat : String → Option School) (bu pi vid fp : String) (inp : Inputs)
    (env : Env) :
    (Call.ssoBypass ∈ (verify cat bu pi vid fp inp env).2 ↔
      ∃ b o, Call.collectInfo b ∈ (verify cat bu pi vid fp inp env).2 ∧
        env.collectResp = .ok (.obj o) 200 ∧
        (o.currentStep = some "sso" ∨ o.currentStep = some "collectStudentPersonalInfo")) ∧
    (∀ o, env.collectResp = .ok (.obj o) 200 →
      (∃ b, Call.collectInfo b ∈ (verify cat bu pi vid fp inp env).2) →
      o.currentStep ≠ some "error" →
      ¬(o.currentStep = some "sso" ∨ o.currentStep = some "collectStudentPersonalInfo") →
      ∃ n, Call.docUpload n ∈ (verify cat bu pi vid fp inp env).2) := by
  rcases verifyBody_trace_cases cat bu pi vid fp inp env with hnil | ⟨sd, school, img, h1, h2, h3⟩
  · have hT : (verify cat bu pi vid fp inp env).2 = [] := by rw [verify_snd_eq, hnil]
    constructor
    · constructor
      · intro h; rw [hT] at h; exact absurd h (List.not_mem_nil _)
      · rintro ⟨b, o, hb, -, -⟩; rw [hT] at hb; exact absurd hb (List.not_mem_nil _)
    · rintro o - ⟨b, hb⟩ - -; rw [hT] at hb; exact absurd hb (List.not_mem_nil _)
  · have hvb := verifyBody_reach cat bu pi vid fp inp env sd school img h1 h2 h3
    have hT : (verify cat bu pi vid fp inp env).2 =
        (stepCollect env vid (mkBody bu pi vid fp inp env school) (mkInfo inp env school) img []).2 := by
      rw [verify_snd_eq, hvb]
    cases hr : env.collectResp with
    | fail m =>
      have hT2 : (verify cat bu pi vid fp inp env).2 =
          [Call.collectInfo (mkBody bu pi vid fp inp env school)] := by
        rw [hT, stepCollect_fail env vid _ _ img [] m hr]; rfl
      constructor
      · constructor
        · intro h; rw [hT2] at h
          simp only [List.mem_singleton] at h; exact Call.noConfusion h
        · rintro ⟨b, o, -, ho, -⟩; exact Resp.noConfusion ho
      · intro o ho; exact absurd ho (by simp)
    | ok bod st =>
      by_cases hst : st = 200
      · subst hst
        cases bod with
        | text s0 =>
          have hT2 : (verify cat bu pi vid fp inp env).2 =
              [Call.collectInfo (mkBody bu pi vid fp inp env school)] := by
            rw [hT, stepCollect_text env vid _ _ img [] s0 hr]; rfl
          constructor
          · constructor
            · intro h; rw [hT2] at h
              simp only [List.mem_singleton] at h; exact Call.noConfusion h
            · rintro ⟨b, o, -, ho, -⟩
              simp only [Resp.ok.injEq] at ho; exact BodyV.noConfusion ho.1
          · intro o ho
            simp only [Resp.ok.injEq] at ho; exact absurd ho.1 (by simp)
        | obj o0 =>
          by_cases he : o0.currentStep = some "error"
          · have hT2 : (verify cat bu pi vid fp inp env).2 =
                [Call.collectInfo (mkBody bu pi vid fp inp env school)] := by
              rw [hT, stepCollect_error env vid _ _ img [] o0 hr he]; rfl
            constructor
            · constructor
              · intro h; rw [hT2] at h
                simp only [List.mem_singleton] at h; exact Call.noConfusion h
              · rintro ⟨b, o, -, ho, hcs⟩
                simp only [Resp.ok.injEq, BodyV.obj.injEq] at ho
                rw [← ho.1, he] at hcs
                rcases hcs with hcs | hcs <;> simp at hcs
            · intro o ho hb hne
              simp only [Resp.ok.injEq, BodyV.obj.injEq] at ho
              rw [← ho.1] at hne; exact absurd he hne
          · have hT3 : (verify cat bu pi vid fp inp env).2 =
                (stepSso env vid (mkInfo inp env school) img (o0.currentStep.getD "initial")
                  [Call.collectInfo (mkBody bu pi vid fp inp env school)]).2 := by
              rw [hT, stepCollect_ok env vid _ _ img [] o0 hr he]; rfl
            by_cases hc : o0.currentStep.getD "initial" = "sso" ∨
                o0.currentStep.getD "initial" = "collectStudentPersonalInfo"
            · have hmemSso : Call.ssoBypass ∈ (verify cat bu pi vid fp inp env).2 := by
                rw [hT3]
                cases hs : env.ssoResp with
                | fail m => rw [stepSso_go_fail env vid _ img _ _ m hc hs]; simp
                | ok b2 st2 =>
                  cases b2 with
                  | text s2 => rw [stepSso_go_text env vid _ img _ _ s2 st2 hc hs]; simp
                  | obj o2 =>
                    rw [stepSso_go_obj env vid _ img _ _ o2 st2 hc hs]
                    exact stepDocUpload_mem_of _ _ _ _ _ _ (by simp)
              have hmemCol : Call.collectInfo (mkBody bu pi vid fp inp env school) ∈
                  (verify cat bu pi vid fp inp env).2 := by
                rw [hT3]
                obtain ⟨t, ht, -⟩ := stepSso_snd env vid (mkInfo inp env school) img
                  (o0.currentStep.getD "initial") [Call.collectInfo (mkBody bu pi vid fp inp env school)]
                rw [ht]; exact List.mem_append_left _ (by simp)
              have hocs : o0.currentStep = some "sso" ∨
                  o0.currentStep = some "collectStudentPersonalInfo" := by
                cases hcs0 : o0.currentStep with
                | none => rw [hcs0] at hc; simp at hc
                | some x =>
                  rw [hcs0] at hc; simp only [Option.getD_some] at hc
                  rcases hc with hc | hc
                  · exact Or.inl (by rw [hc])
                  · exact Or.inr (by rw [hc])
              constructor
              · exact ⟨fun _ => ⟨mkBody bu pi vid fp inp env school, o0, hmemCol, rfl, hocs⟩,
                  fun _ => hmemSso⟩
              · intro o' ho' hb hne hno
                simp only [Resp.ok.injEq, BodyV.obj.injEq] at ho'
                rw [← ho'.1] at hno
                exact absurd hocs hno
            · have hT4 : (verify cat bu pi vid fp inp env).2 =
                  (stepDocUpload env vid (mkInfo inp env school) img
                    [Call.collectInfo (mkBody bu pi vid fp inp env school)]).2 := by
                rw [hT3, stepSso_skip env vid _ img _ _ hc]
              have hnos : Call.ssoBypass ∉ (verify cat bu pi vid fp inp env).2 := by
                rw [hT4, stepDocUpload_mem_sso]
                simp only [List.mem_singleton]
                intro h; exact Call.noConfusion h
              have hdoc : Call.docUpload img.length ∈ (verify cat bu pi vid fp inp env).2 := by
                rw [hT4]; exact stepDocUpload_mem_self _ _ _ _ _
              constructor
              · constructor
                · intro h; exact absurd h hnos
                · rintro ⟨b, o', -, ho', hcs'⟩
                  simp only [Resp.ok.injEq, BodyV.obj.injEq] at ho'
                  rw [← ho'.1] at hcs'
                  rcases hcs' with h | h <;> rw [h] at hc <;> simp at hc
              · intro o' ho' hb hne hno
                exact ⟨img.length, hdoc⟩
      · have hT2 : (verify cat bu pi vid fp inp env).2 =
            [Call.collectInfo (mkBody bu pi vid fp inp env school)] := by
          rw [hT, stepCollect_non200 env vid _ _ img [] bod st hr hst]; rfl
        constructor
        · constructor
          · intro h; rw [hT2] at h
            simp only [List.mem_singleton] at h; exact Call.noConfusion h
          · rintro ⟨b, o, -, ho, -⟩
            simp only [Resp.ok.injEq] at ho; exact absurd ho.2 hst
        · intro o ho
          simp only [Resp.ok.injEq] at ho; exact absurd ho.2 hst

/-- C2 witness: with step 1 reporting `"sso"`, the bypass call is issued. -/
theorem C2_sso_guard_witness :
    Call.ssoBypass ∈ (verify catMIT "https://b" "P" "vid0" "fp0" inpBase
      { envBase with collectResp := Resp.ok (BodyV.obj { currentStep := some "sso" }) 200 }).2 := by
  exact ((C2_sso_guard catMIT "https://b" "P" "vid0" "fp0" inpBase
      { envBase with collectResp := Resp.ok (BodyV.obj { currentStep := some "sso" }) 200 }).1).mpr
    ⟨mkBody "https://b" "P" "vid0" "fp0" inpBase
        { envBase with collectResp := Resp.ok (BodyV.obj { currentStep := some "sso" }) 200 } schoolMIT,
      { currentStep := some "sso" }, by decide, rfl, Or.inl rfl⟩

/-- C3 counterexample: a transport-level failure of the SSO-bypass call
IS fatal: the run returns a failure outcome carrying the transport
error and never proceeds to request the upload slot, contradicting the
claim that a failure of this call is never fatal. -/
theorem C3_counterexample :
    (verify catMIT "https://b" "P" "vid0" "fp0" inpBase envC3).1 =
      Outcome.failure "connection reset" "vid0" ∧
    (verify catMIT "https://b" "P" "vid0" "fp0" inpBase envC3).2 =
      [Call.collectInfo (mkBody "https://b" "P" "vid0" "fp0" inpBase envC3 schoolMIT),
        Call.ssoBypass] := by
  exact ⟨by decide, by decide⟩

/-- C3 (amended): when the SSO-bypass call is issued and returns an HTTP
response with a JSON-object body, its failure is not fatal: whatever the
status, the engine proceeds to request the upload slot.  A
transport-level failure of the call, however, aborts the run with a
failure outcome and the upload slot is never requested. -/
theorem C3_sso_best_effort (cat : String → Option School) (bu pi vid fp : String) (inp : Inputs)
    (env : Env) (o : JsonObj)
    (hresp : env.collectResp = .ok (.obj o) 200)
    (hcs : o.currentStep = some "sso" ∨ o.currentStep = some "collectStudentPersonalInfo")
    (hreach : ∃ b, Call.collectInfo b ∈ (verify cat bu pi vid fp inp env).2) :
    (∀ o3 st3, env.ssoResp = .ok (.obj o3) st3 →
      ∃ n, Call.docUpload n ∈ (verify cat bu pi vid fp inp env).2) ∧
    (∀ m, env.ssoResp = .fail m →
      (verify cat bu pi vid fp inp env).1 = .failure m vid ∧
      ∀ n, Call.docUpload n ∉ (verify cat bu pi vid fp inp env).2) := by
  obtain ⟨b0, hb0⟩ := hreach
  rw [verify_snd_eq] at hb0
  rcases verifyBody_trace_cases cat bu pi vid fp inp env with hnil | ⟨sd, school, img, h1, h2, h3⟩
  · rw [hnil] at hb0; exact absurd hb0 (List.not_mem_nil _)
  · have hvb := verifyBody_reach cat bu pi vid fp inp env sd school img h1 h2 h3
    have he : o.currentStep ≠ some "error" := by
      rcases hcs with h | h <;> rw [h] <;> simp
    have hc : o.currentStep.getD "initial" = "sso" ∨
        o.currentStep.getD "initial" = "collectStudentPersonalInfo" := by
      rcases hcs with h | h <;> rw [h] <;> simp
    constructor
    · intro o3 st3 hs
      refine ⟨img.length, ?_⟩
      rw [verify_snd_eq, hvb, stepCollect_ok env vid _ _ img [] o hresp he,
        stepSso_go_obj env vid _ img _ _ o3 st3 hc hs]
      exact stepDocUpload_mem_self _ _ _ _ _
    · intro m hs
      have hb : verifyBody cat bu pi vid fp inp env =
          (.error (.transport m),
            ([] ++ [Call.collectInfo (mkBody bu pi vid fp inp env school)]) ++ [Call.ssoBypass]) := by
        rw [hvb, stepCollect_ok env vid _ _ img [] o hresp he,
          stepSso_go_fail env vid _ img _ _ m hc hs]
      have hv := verify_of_error cat bu pi vid fp inp env _ _ hb
      constructor
      · rw [hv]; rfl
      · intro n hn
        rw [verify_snd_eq] at hn
        rw [hb] at hn
        simp only [List.nil_append, List.mem_append, List.mem_singleton, List.mem_cons,
          List.not_mem_nil, or_false] at hn
        rcases hn with hn | hn
        · exact Call.noConfusion hn
        · exact Call.noConfusion hn

/-- C3 witness: with a JSON-object SSO response (any status), the upload
slot is still requested. -/
theorem C3_sso_best_effort_witness :
    ∃ n, Call.docUpload n ∈ (verify catMIT "https://b" "P" "vid0" "fp0" inpBase
      { envBase with collectResp := Resp.ok (BodyV.obj { currentStep := some "sso" }) 200, ssoResp := Resp.ok (BodyV.obj { currentStep := some "docUpload" }) 503 }).2 := by
  exact (C3_sso_best_effort catMIT "https://b" "P" "vid0" "fp0" inpBase _
      { currentStep := some "sso" } rfl (Or.inl rfl)
      ⟨mkBody "https://b" "P" "vid0" "fp0" inpBase
        { envBase with collectResp := Resp.ok (BodyV.obj { currentStep := some "sso" }) 200, ssoResp := Resp.ok (BodyV.obj { currentStep := some "docUpload" }) 503 } schoolMIT,
        by decide⟩).1 { currentStep := some "docUpload" } 503 rfl

/-- C4: when the upload-slot response carries an absent or empty
`documents` list, the run fails with the upload-slot-missing message and
the binary PUT transfer is never attempted; when the list is non-empty,
the first descriptor's `uploadUrl` is the PUT destination. -/
theorem C4_upload_slot (cat : String → Option School) (bu pi vid fp : String) (inp : Inputs)
    (env : Env) (o : JsonObj) (st : Nat)
    (hreach : ∃ n, Call.docUpload n ∈ (verify cat bu pi vid fp inp env).2)
    (hresp : env.docUploadResp = .ok (.obj o) st) :
    ((o.documents = none ∨ o.documents = some []) →
      (verify cat bu pi vid fp inp env).1 = .failure "Failed to get upload URL" vid ∧
      ∀ u p, Call.putUpload u p ∉ (verify cat bu pi vid fp inp env).2) ∧
    (∀ d ds u, o.documents = some (d :: ds) → d.uploadUrl = some u →
      ∃ p, Call.putUpload u p ∈ (verify cat bu pi vid fp inp env).2) := by
  obtain ⟨n0, hn0⟩ := hreach
  rw [verify_snd_eq] at hn0
  rcases verifyBody_trace_cases cat bu pi vid fp inp env with hnil | ⟨sd, school, img, h1, h2, h3⟩
  · rw [hnil] at hn0; exact absurd hn0 (List.not_mem_nil _)
  · have hvb := verifyBody_reach cat bu pi vid fp inp env sd school img h1 h2 h3
    rw [hvb] at hn0
    cases hr : env.collectResp with
    | fail m =>
      rw [stepCollect_fail env vid _ _ img [] m hr] at hn0
      simp at hn0
    | ok bod stc =>
      by_cases hst : stc = 200
      · subst hst
        cases bod with
        | text s0 =>
          rw [stepCollect_text env vid _ _ img [] s0 hr] at hn0; simp at hn0
        | obj o0 =>
          by_cases he : o0.currentStep = some "error"
          · rw [stepCollect_error env vid _ _ img [] o0 hr he] at hn0; simp at hn0
          · have hcol := stepCollect_ok env vid (mkBody bu pi vid fp inp env school)
              (mkInfo inp env school) img [] o0 hr he
            by_cases hc : o0.currentStep.getD "initial" = "sso" ∨
                o0.currentStep.getD "initial" = "collectStudentPersonalInfo"
            · cases hs : env.ssoResp with
              | fail m =>
                rw [hcol, stepSso_go_fail env vid _ img _ _ m hc hs] at hn0; simp at hn0
              | ok b2 st2 =>
                cases b2 with
                | text s2 =>
                  rw [hcol, stepSso_go_text env vid _ img _ _ s2 st2 hc hs] at hn0; simp at hn0
                | obj o2 =>
                  have hsso := stepSso_go_obj env vid (mkInfo inp env school) img
                    (o0.currentStep.getD "initial")
                    ([] ++ [Call.collectInfo (mkBody bu pi vid fp inp env school)]) o2 st2 hc hs
                  constructor
                  · intro hd
                    have hmiss := stepDocUpload_missing env vid (mkInfo inp env school) img
                      (([] ++ [Call.collectInfo (mkBody bu pi vid fp inp env school)]) ++
                        [Call.ssoBypass]) o st hresp hd
                    have hb : verifyBody cat bu pi vid fp inp env =
                        (.error (.exc "Failed to get upload URL"),
                          ((([] ++ [Call.collectInfo (mkBody bu pi vid fp inp env school)]) ++
                            [Call.ssoBypass]) ++ [Call.docUpload img.length])) := by
                      rw [hvb, hcol, hsso, hmiss]
                    have hv := verify_of_error cat bu pi vid fp inp env _ _ hb
                    refine ⟨by rw [hv]; rfl, ?_⟩
                    intro u p hp
                    rw [verify_snd_eq, hb] at hp
                    simp at hp
                  · intro d ds u hd hu
                    refine ⟨img, ?_⟩
                    rw [verify_snd_eq, hvb, hcol, hsso]
                    exact stepDocUpload_mem_put env vid _ img _ o st d ds u hresp hd hu
            · have hskip := stepSso_skip env vid (mkInfo inp env school) img
                (o0.currentStep.getD "initial")
                ([] ++ [Call.collectInfo (mkBody bu pi vid fp inp env school)]) hc
              constructor
              · intro hd
                have hmiss := stepDocUpload_missing env vid (mkInfo inp env school) img
                  ([] ++ [Call.collectInfo (mkBody bu pi vid fp inp env school)]) o st hresp hd
                have hb : verifyBody cat bu pi vid fp inp env =
                    (.error (.exc "Failed to get upload URL"),
                      (([] ++ [Call.collectInfo (mkBody bu pi vid fp inp env school)]) ++
                        [Call.docUpload img.length])) := by
                  rw [hvb, hcol, hskip, hmiss]
                have hv := verify_of_error cat bu pi vid fp inp env _ _ hb
                refine ⟨by rw [hv]; rfl, ?_⟩
                intro u p hp
                rw [verify_snd_eq, hb] at hp
                simp at hp
              · intro d ds u hd hu
                refine ⟨img, ?_⟩
                rw [verify_snd_eq, hvb, hcol, hskip]
                exact stepDocUpload_mem_put env vid _ img _ o st d ds u hresp hd hu
      · rw [stepCollect_non200 env vid _ _ img [] bod stc hr hst] at hn0; simp at hn0

/-- C4 witness: empty `documents` list yields the upload-slot-missing
failure with no PUT attempted. -/
theorem C4_upload_slot_witness :
    (verify catMIT "https://b" "P" "vid0" "fp0" inpBase
        { envBase with docUploadResp := Resp.ok (BodyV.obj { documents := some [] }) 200 }).1 =
      .failure "Failed to get upload URL" "vid0" ∧
    ∀ u p, Call.putUpload u p ∉ (verify catMIT "https://b" "P" "vid0" "fp0" inpBase
        { envBase with docUploadResp := Resp.ok (BodyV.obj { documents := some [] }) 200 }).2 := by
  exact (C4_upload_slot catMIT "https://b" "P" "vid0" "fp0" inpBase
      { envBase with docUploadResp := Resp.ok (BodyV.obj { documents := some [] }) 200 }
      { documents := some [] } 200 ⟨3, by decide⟩ rfl).1 (Or.inr rfl)

/-- C5: `verify` never lets an exception escape: every run terminates in
a success outcome or in a failure outcome carrying the session's
verification id and a message. -/
theorem C5_uniform_outcome (cat : String → Option School) (bu pi vid fp : String) (inp : Inputs)
    (env : Env) :
    (∃ r, (verify cat bu pi vid fp inp env).1 = Outcome.success r) ∨
    ∃ m, (verify cat bu pi vid fp inp env).1 = Outcome.failure m vid := by
  unfold verify
  cases hb : verifyBody cat bu pi vid fp inp env with
  | mk res calls =>
    cases res with
    | ok r => exact Or.inl ⟨r, rfl⟩
    | error e => exact Or.inr ⟨e.message, rfl⟩

/-! ### Lemmas about `parse_verification_id` -/

theorem tryVidAt_sound (s : List Char) (v : String) (h : tryVidAt s = some v) :
    v.data ≠ [] ∧ ∀ c ∈ v.data, isHexCI c = true := by
  unfold tryVidAt at h
  by_cases hci : ciStartsWith vidLit s = true
  · rw [if_pos hci] at h
    by_cases hemp : ((s.drop vidLit.length).takeWhile isHexCI).isEmpty = true
    · rw [if_pos hemp] at h; exact Option.noConfusion h
    · rw [if_neg hemp] at h
      have hv : v = String.mk ((s.drop vidLit.length).takeWhile isHexCI) :=
        (Option.some.injEq _ _).mp h.symm
      subst hv
      constructor
      · intro hne
        rw [List.isEmpty_iff] at hemp
        exact hemp hne
      · intro c hc
        exact List.mem_takeWhile_imp hc
  · rw [if_neg hci] at h; exact Option.noConfusion h

theorem findVid_sound (s : List Char) (v : String) (h : findVid s = some v) :
    v.data ≠ [] ∧ ∀ c ∈ v.data, isHexCI c = true := by
  induction s with
  | nil => exact Option.noConfusion h
  | cons c rest ih =>
    unfold findVid at h
    cases ht : tryVidAt (c :: rest) with
    | some r =>
      rw [ht] at h
      have : r = v := (Option.some.injEq _ _).mp h
      subst this
      exact tryVidAt_sound (c :: rest) r ht
    | none => rw [ht] at h; exact ih h

theorem findVid_none_of_no_occ (s : List Char) (h : hasVidOcc s = false) :
    findVid s = none := by
  induction s with
  | nil => rfl
  | cons c rest ih =>
    unfold hasVidOcc at h
    rw [Bool.or_eq_false_iff] at h
    have ht : tryVidAt (c :: rest) = none := by
      unfold tryVidAt; rw [h.1]; rfl
    unfold findVid
    rw [ht]
    exact ih h.2

/-- C7 counterexample: on a URL whose `verificationId` value is the
non-hexadecimal string `12g34`, the parser does not return none: it
returns the leading hexadecimal prefix `"12"`. -/
theorem C7_counterexample :
    parse_verification_id "https://services.sheerid.com/verify/?verificationId=12g34" =
      some "12" := by
  decide

/-- C7 (amended): `parse_verification_id` extracts, case-insensitively,
the maximal run of hexadecimal characters immediately following
`verificationId=`; every returned value is a non-empty hexadecimal
string, the parameter-absent case returns none, the all-hexadecimal
example is extracted whole, and a value with a non-hexadecimal character
yields its leading hexadecimal prefix instead of none. -/
theorem C7_parse_hex_run :
    (∀ url v, parse_verification_id url = some v →
      v.data ≠ [] ∧ ∀ c ∈ v.data, isHexCI c = true) ∧
    (∀ url, hasVidOcc url.data = false → parse_verification_id url = none) ∧
    parse_verification_id "https://x.example/?verificationId=AB12cd" = some "AB12cd" ∧
    parse_verification_id "https://x.example/?other=1" = none := by
  refine ⟨fun url v h => findVid_sound url.data v h,
    fun url h => findVid_none_of_no_occ url.data h, by decide, by decide⟩

/-- C7 witness: the general clauses instantiated at concrete URLs. -/
theorem C7_parse_hex_run_witness :
    ("AB12cd" : String).data ≠ [] ∧ (∀ c ∈ ("AB12cd" : String).data, isHexCI c = true) ∧
    parse_verification_id "https://x.example/?nothing=1" = none := by
  refine ⟨?_, ?_, ?_⟩
  · exact (C7_parse_hex_run.1 "https://x.example/?verificationId=AB12cd" "AB12cd" (by decide)).1
  · exact (C7_parse_hex_run.1 "https://x.example/?verificationId=AB12cd" "AB12cd" (by decide)).2
  · exact C7_parse_hex_run.2.1 "https://x.example/?nothing=1" (by decide)

/-! ### Lemmas about the generated email -/

theorem genUsername_length (rng : Nat → Nat) : (genUsername rng).length = 8 := rfl

theorem genUsername_chars (rng : Nat → Nat) :
    ∀ c ∈ (genUsername rng).data, c ∈ emailChars.data := by
  intro c hc
  have hc' : c ∈ (List.range 8).map
      (fun i => emailChars.data.getD (rng i % emailChars.data.length) 'A') := hc
  obtain ⟨i, -, rfl⟩ := List.mem_map.mp hc'
  have hpos : 0 < emailChars.data.length := by decide
  have hlt : rng i % emailChars.data.length < emailChars.data.length := Nat.mod_lt _ hpos
  rw [List.getD_eq_getElem _ _ hlt]
  exact List.getElem_mem _

/-- C8: when the caller supplies no email, the email that is submitted in
the collect-personal-info request is an 8-character local part drawn
from the uppercase-alphanumeric character set, followed by `@` and the
resolved organization's domain uppercased; the success outcome reports
that same email. -/
theorem C8_generated_email (cat : String → Option School) (bu pi vid fp : String) (inp : Inputs)
    (env : Env) (sd : SchoolData) (school : School) (b : CollectBody)
    (hsd : inp.school_data = some sd)
    (hschool : resolveSchool cat sd = .ok school)
    (hemail : truthyS inp.email = false)
    (hmem : Call.collectInfo b ∈ (verify cat bu pi vid fp inp env).2) :
    (∃ u : String, b.email = u ++ "@" ++ pyUpper school.domain ∧ u.length = 8 ∧
      ∀ c ∈ u.data, c ∈ emailChars.data) ∧
    (∀ r, (verify cat bu pi vid fp inp env).1 = .success r →
      r.student_info.email = b.email) := by
  have hmem' := hmem
  rw [verify_snd_eq] at hmem'
  rcases verifyBody_trace_cases cat bu pi vid fp inp env with hnil | ⟨sd', school', img, -, -, h3⟩
  · rw [hnil] at hmem'; exact absurd hmem' (List.not_mem_nil _)
  · have hvb := verifyBody_reach cat bu pi vid fp inp env sd school img hsd hschool h3
    have hbB : b = mkBody bu pi vid fp inp env school := by
      rw [hvb] at hmem'
      exact stepCollect_collect_unique env vid _ _ img b hmem'
    have hem : (mkBody bu pi vid fp inp env school).email =
        genUsername env.rng ++ "@" ++ pyUpper school.domain := by
      show mkEmail inp env school.domain = _
      unfold mkEmail
      rw [if_neg (by rw [hemail]; exact Bool.false_ne_true)]
      rfl
    constructor
    · exact ⟨genUsername env.rng, by rw [hbB, hem], genUsername_length env.rng,
        genUsername_chars env.rng⟩
    · intro r hrs
      obtain ⟨sd₂, school₂, img₂, h1₂, h2₂, h3₂, hinfo, -, -⟩ :=
        verify_success_info cat bu pi vid fp inp env r hrs
      have hsd₂ : sd = sd₂ := by rw [hsd] at h1₂; exact Option.some.inj h1₂
      rw [← hsd₂, hschool] at h2₂
      have hsc₂ : school = school₂ := Except.ok.inj h2₂
      rw [hinfo, ← hsc₂, hbB]; rfl

/-- C8 witness: with the MIT catalog entry and no supplied email, the
submitted email is an 8-character uppercase-alphanumeric local part
followed by the uppercased domain, and the success outcome echoes it. -/
theorem C8_generated_email_witness :
    (∃ u : String, (mkBody "https://b" "P" "vid0" "fp0" inpBase envBase schoolMIT).email =
      u ++ "@" ++ pyUpper schoolMIT.domain ∧ u.length = 8 ∧
      ∀ c ∈ u.data, c ∈ emailChars.data) ∧
    (∀ r, (verify catMIT "https://b" "P" "vid0" "fp0" inpBase envBase).1 = .success r →
      r.student_info.email = (mkBody "https://b" "P" "vid0" "fp0" inpBase envBase schoolMIT).email) := by
  exact C8_generated_email catMIT "https://b" "P" "vid0" "fp0" inpBase envBase
    { dict_key := some "mit" } schoolMIT _ rfl rfl rfl (by decide)

/-- C9 counterexample: with a supplied first name "Alice" but no last
name, the submitted request carries the generated first name "Bob"
instead of the caller's "Alice" — a supplied identity field is not
passed unchanged. -/
theorem C9_counterexample :
    inpC9.first_name = some "Alice" ∧
    (verify catMIT "https://b" "P" "vid0" "fp0" inpC9 envC9).2 =
      [Call.collectInfo (mkBody "https://b" "P" "vid0" "fp0" inpC9 envC9 schoolMIT)] ∧
    (mkBody "https://b" "P" "vid0" "fp0" inpC9 envC9 schoolMIT).firstName = "Bob" := by
  exact ⟨rfl, by decide, rfl⟩

/-- C9 (amended): first and last name are passed unchanged only when BOTH
are supplied non-empty; when either is missing, both are replaced by the
name generator's pair.  Email and birth date are individually filled
only when absent and otherwise pass unchanged into the request; the
success outcome echoes the submitted identity. -/
theorem C9_identity_fill (cat : String → Option School) (bu pi vid fp : String) (inp : Inputs)
    (env : Env) (sd : SchoolData) (school : School) (b : CollectBody)
    (hsd : inp.school_data = some sd)
    (hschool : resolveSchool cat sd = .ok school)
    (hmem : Call.collectInfo b ∈ (verify cat bu pi vid fp inp env).2) :
    (truthyS inp.first_name = true ∧ truthyS inp.last_name = true →
      b.firstName = inp.first_name.getD "" ∧ b.lastName = inp.last_name.getD "") ∧
    (truthyS inp.first_name = false ∨ truthyS inp.last_name = false →
      (b.firstName, b.lastName) = env.nameGen) ∧
    (truthyS inp.email = true → b.email = inp.email.getD "") ∧
    (truthyS inp.birth_date = true → b.birthDate = inp.birth_date.getD "") ∧
    (truthyS inp.birth_date = false → b.birthDate = env.birthGen) ∧
    (∀ r, (verify cat bu pi vid fp inp env).1 = .success r →
      r.student_info.first_name = b.firstName ∧ r.student_info.last_name = b.lastName ∧
      r.student_info.email = b.email ∧ r.student_info.birth_date = b.birthDate ∧
      r.student_info.school_name = school.name) := by
  have hmem' := hmem
  rw [verify_snd_eq] at hmem'
  rcases verifyBody_trace_cases cat bu pi vid fp inp env with hnil | ⟨sd', school', img, -, -, h3⟩
  · rw [hnil] at hmem'; exact absurd hmem' (List.not_mem_nil _)
  · have hvb := verifyBody_reach cat bu pi vid fp inp env sd school img hsd hschool h3
    have hbB : b = mkBody bu pi vid fp inp env school := by
      rw [hvb] at hmem'
      exact stepCollect_collect_unique env vid _ _ img b hmem'
    subst hbB
    refine ⟨?_, ?_, ?_, ?_, ?_, ?_⟩
    · rintro ⟨hf, hl⟩
      have hn : mkNames inp env = (inp.first_name.getD "", inp.last_name.getD "") := by
        simp [mkNames, hf, hl]
      exact ⟨by show (mkNames inp env).1 = _; rw [hn],
        by show (mkNames inp env).2 = _; rw [hn]⟩
    · intro h
      have hn : mkNames inp env = env.nameGen := by
        rcases h with h | h <;> simp [mkNames, h]
      show ((mkNames inp env).1, (mkNames inp env).2) = env.nameGen
      rw [hn]
    · intro h
      show mkEmail inp env school.domain = _
      unfold mkEmail; rw [if_pos h]
    · intro h
      show mkBirth inp env = _
      unfold mkBirth; rw [if_pos h]
    · intro h
      show mkBirth inp env = _
      unfold mkBirth; rw [if_neg (by rw [h]; exact Bool.false_ne_true)]
    · intro r hrs
      obtain ⟨sd₂, school₂, img₂, h1₂, h2₂, h3₂, hinfo, -, -⟩ :=
        verify_success_info cat bu pi vid fp inp env r hrs
      have hsd₂ : sd = sd₂ := by rw [hsd] at h1₂; exact Option.some.inj h1₂
      rw [← hsd₂, hschool] at h2₂
      have hsc₂ : school = school₂ := Except.ok.inj h2₂
      rw [hinfo, ← hsc₂]
      exact ⟨rfl, rfl, rfl, rfl, rfl⟩

/-- C9 witness: a fully supplied identity is passed through unchanged. -/
theorem C9_identity_fill_witness :
    (mkBody "https://b" "P" "vid0" "fp0" inpW9 envC9 schoolMIT).firstName =
      (some "Jo" : Option String).getD "" ∧
    (mkBody "https://b" "P" "vid0" "fp0" inpW9 envC9 schoolMIT).email =
      (some "e@x" : Option String).getD "" := by
  have h := C9_identity_fill catMIT "https://b" "P" "vid0" "fp0" inpW9 envC9
    { dict_key := some "mit" } schoolMIT
    (mkBody "https://b" "P" "vid0" "fp0" inpW9 envC9 schoolMIT) rfl rfl (by decide)
  exact ⟨(h.1 ⟨rfl, rfl⟩).1, h.2.2.1 rfl⟩

/-- C10: an organization descriptor not marked as from-search whose
truthy catalog key is unknown to the static catalog makes the run fail
(the lookup raises `KeyError`, converted at the run boundary), with no
fallback to the descriptor's own fields and no remote call. -/
theorem C10_unknown_catalog_key (cat : String → Option School) (bu pi vid fp : String)
    (inp : Inputs) (env : Env) (sd : SchoolData) (k : String)
    (hsd : inp.school_data = some sd)
    (hfs : sd.from_search = false)
    (hdk : sd.dict_key = some k)
    (hk : k ≠ "")
    (hcat : cat k = none) :
    verify cat bu pi vid fp inp env = (.failure ("'" ++ k ++ "'") vid, []) := by
  have htr : truthyS (some k) = true := by simp [truthyS, hk]
  have hres : resolveSchool cat sd = .error (.keyError k) := by
    unfold resolveSchool
    simp only [hfs, Bool.false_eq_true, if_false, hdk, Option.getD_some, hcat, htr, if_true]
  have hb : verifyBody cat bu pi vid fp inp env = (.error (.keyError k), []) := by
    unfold verifyBody
    simp only [hsd, hres]
  exact verify_of_error cat bu pi vid fp inp env _ _ hb

/-- C10 witness: the key "zzz" is not in the one-entry catalog. -/
theorem C10_unknown_catalog_key_witness :
    verify catMIT "https://b" "P" "vid0" "fp0"
        { school_data := some { dict_key := some "zzz" } } envBase =
      (.failure ("'" ++ "zzz" ++ "'") "vid0", []) := by
  exact C10_unknown_catalog_key catMIT "https://b" "P" "vid0" "fp0" _ envBase
    { dict_key := some "zzz" } "zzz" rfl rfl rfl (by decide) rfl
